import Mathlib

/-!
Shallow embedding of the `api-dashboard` React components
(`src/components/ApiDashboard.tsx` and `src/components/ApiDashboardV3.tsx`).

JavaScript numbers are modelled as rationals (`ℚ`): every arithmetic
operation the geometry code performs (max, +, -, *, /) is exact on the
concrete decimal inputs appearing in the spec's examples, so the ideal
(real-number) behaviour the spec describes is captured without
floating-point rounding.  Stateful React hooks are modelled as explicit
state-passing functions: `useState` values become record fields and each
event handler / effect becomes a function from state to state.
-/

namespace ApiDashboard

/-! ## Fetch adapter (`useDashboard` in both components)

The hook keeps `data : DashboardData | null`, `loading : boolean`,
`error : string | null`.  Each effect run (one per started request)
captures a `cancelled` flag; the cleanup of the previous run sets that
flag, so a completion is applied only when it belongs to the most
recently started request.  We model this with a generation token:
`current` is the token of the last-started request and a completion
carries the token of the request it belongs to. -/

structure FetchState (α : Type) where
  data : Option α
  loading : Bool
  error : Option String
deriving Repr, DecidableEq

/-- Result of a settled `fetch` promise chain:
`success` for an ok response with parsed body, `httpError s` for a
non-2xx response (the code throws `new Error("HTTP " + status)`),
`networkError m` for a rejected fetch (message `m`). -/
inductive FetchResult (α : Type) where
  | success (payload : α)
  | httpError (status : Nat)
  | networkError (msg : String)
deriving Repr, DecidableEq

structure FetchSystem (α : Type) where
  st : FetchState α
  /-- token of the most recently started request -/
  current : Nat
  /-- number of requests started so far (the next token) -/
  started : Nat
deriving Repr, DecidableEq

/-- Effect body start: `setLoading(true); setError(null)` and a fresh
`cancelled = false` closure; the previous run's cleanup has already set
its own flag, which the token comparison models. -/
def startFetch {α : Type} (sys : FetchSystem α) : FetchSystem α :=
  { st := { data := sys.st.data, loading := true, error := none }
    current := sys.started
    started := sys.started + 1 }

/-- Applying a completion of the current request:
`.then(d => setData(d))`, `.catch(e => setError(e.message))`,
`.finally(() => setLoading(false))`; on `!r.ok` the chain throws
`Error("HTTP " + status)` which the catch receives. -/
def applyResult {α : Type} (st : FetchState α) : FetchResult α → FetchState α
  | .success p => { data := some p, loading := false, error := st.error }
  | .httpError s => { data := st.data, loading := false, error := some ("HTTP " ++ toString s) }
  | .networkError m => { data := st.data, loading := false, error := some m }

/-- A completion is guarded by `if (!cancelled)` in every branch: a
completion whose token is not the current one changes nothing. -/
def resolve {α : Type} (sys : FetchSystem α) (tok : Nat) (res : FetchResult α) :
    FetchSystem α :=
  if tok = sys.current then { sys with st := applyResult sys.st res } else sys

/-! ## View state (`ApiDashboardV3`)

`useState` fields: `activeWindow` (default "24h"), `alertDismissed`
(default false), `page` (default 1), `expandedPath` (default null). -/

structure ViewState where
  activeWindow : String
  currentPage : Nat
  alertDismissed : Bool
  expandedPath : Option String
deriving Repr, DecidableEq

/-- Clicking a window button runs `setActiveWindow(w)`; the effect
`useEffect(() => { setPage(1); setAlertDismissed(false); }, [activeWindow])`
fires only when `activeWindow` actually changed between renders (React
bails out of a same-value state update, and the effect's dependency
comparison also sees an unchanged dependency), so selecting the window
that is already active changes nothing. -/
def selectWindow (s : ViewState) (w : String) : ViewState :=
  if w = s.activeWindow then s
  else { activeWindow := w, currentPage := 1, alertDismissed := false
         expandedPath := s.expandedPath }

/-- `toggleExpand(path)`: `setExpandedPath(prev => prev === path ? null : path)`. -/
def toggleExpand (s : ViewState) (path : String) : ViewState :=
  { s with expandedPath := if s.expandedPath = some path then none else some path }

/-- `totalPages = Math.max(1, Math.ceil(endpoints.length / pageSize))`;
for positive `pageSize`, `⌈n / ps⌉ = (n + ps - 1) / ps` on naturals. -/
def totalPages (numEndpoints pageSize : Nat) : Nat :=
  max 1 ((numEndpoints + pageSize - 1) / pageSize)

/-- The clamp function the spec's transition table uses. -/
def clamp (p lo hi : Nat) : Nat := max lo (min hi p)

/-- The pagination footer's three kinds of controls. -/
inductive PageEvent where
  | goto (p : Nat)
  | prev
  | next
deriving Repr, DecidableEq

/-- Page-control handlers: numbered buttons run `setPage(p)` (raw, no
clamping; buttons exist only for `p = 1 .. totalPages`),
`←` runs `setPage(p => Math.max(1, p - 1))`,
`→` runs `setPage(p => Math.min(totalPages, p + 1))`. -/
def applyPageEvent (page total : Nat) : PageEvent → Nat
  | .goto p => p
  | .prev => max 1 (page - 1)
  | .next => min total (page + 1)

/-- `visibleEndpoints = endpoints.slice((page - 1) * pageSize, page * pageSize)`:
JS `slice(a, b)` is drop `a` then take `b - a`. -/
def visibleEndpoints {α : Type} (endpoints : List α) (page pageSize : Nat) : List α :=
  (endpoints.drop ((page - 1) * pageSize)).take pageSize

/-! ## Geometry engine: `RequestChart` (area + line time-series chart) -/

structure ChartPoint where
  hour : String
  success : ℚ
  error : ℚ
deriving Repr, DecidableEq, Inhabited

/-- Chart frame constants: `W = 560, H = 160, padL = 20, padB = 20, padT = 10`. -/
def chartW : ℚ := 560 - 20
def chartH : ℚ := 160 - 20 - 10
def padL : ℚ := 20
def padT : ℚ := 10

/-- `maxVal = Math.max(...points.map(p => Math.max(p.success, p.error)), 1) * 1.1`:
the fold computes the maximum of all success/error values together with `1`,
and the 10% headroom multiplier is applied to that floored maximum. -/
def maxVal (pts : List ChartPoint) : ℚ :=
  (pts.foldr (fun p acc => max (max p.success p.error) acc) 1) * (11 / 10)

/-- `px = (i) => padL + (i / (points.length - 1)) * chartW` -/
def px (n : Nat) (i : Nat) : ℚ := padL + ((i : ℚ) / ((n : ℚ) - 1)) * chartW

/-- `py = (v) => padT + (1 - v / maxVal) * chartH` -/
def py (pts : List ChartPoint) (v : ℚ) : ℚ :=
  padT + (1 - v / maxVal pts) * chartH

/-- `Math.round` on an exact decimal value: round half up. -/
def jsRound (q : ℚ) : ℤ := ⌊q + 1 / 2⌋

/-- One y-axis gridline label:
`v = Math.round(f * maxVal); v >= 1000 ? Math.round(v / 1000) + "k" : "" + v`. -/
def gridLabel (pts : List ChartPoint) (f : ℚ) : String :=
  let v : ℤ := jsRound (f * maxVal pts)
  if v ≥ 1000 then toString (jsRound ((v : ℚ) / 1000)) ++ "k" else toString v

/-- X-axis label indices, from
`points.reduce((acc, _, i) => { if (i === 0 || i === points.length - 1 ||
i % Math.floor(points.length / 5) === 0) acc.push(i); return acc; }, [])`.
When `n < 5` the JS modulus `i % 0` evaluates to `NaN`, and `NaN === 0` is
false, so that disjunct holds only when the divisor `n / 5` is nonzero. -/
def xLabelIndices (n : Nat) : List Nat :=
  (List.range n).filter fun i =>
    decide (i = 0 ∨ i = n - 1 ∨ (n / 5 ≠ 0 ∧ i % (n / 5) = 0))

/-- The pure geometry `RequestChart` derives from its `points` prop
before emitting SVG: polyline vertices for both series, the closed area
outline for the primary series, the gridline labels, and the x-label
index set. -/
structure ChartGeometry where
  maxValue : ℚ
  successPts : List (ℚ × ℚ)
  errorPts : List (ℚ × ℚ)
  successArea : List (ℚ × ℚ)
  gridLabels : List String
  xIndices : List Nat
deriving Repr, DecidableEq

/-- Geometry of `RequestChart` for `points.length ≥ 2` (`none` is the
guard's blank frame for shorter inputs). -/
def chartGeometry (pts : List ChartPoint) : Option ChartGeometry :=
  if pts.length < 2 then none
  else
    let n := pts.length
    some
      { maxValue := maxVal pts
        successPts := (List.range n).map fun i =>
          (px n i, py pts ((pts.getD i default).success))
        errorPts := (List.range n).map fun i =>
          (px n i, py pts ((pts.getD i default).error))
        successArea :=
          ((List.range n).map fun i =>
            (px n i, py pts ((pts.getD i default).success))) ++
          [(px n (n - 1), padT + chartH), (padL, padT + chartH)]
        gridLabels := [0, 33 / 100, 67 / 100, 1].map (gridLabel pts)
        xIndices := xLabelIndices n }

/-- The rendered SVG pairs the pure geometry with the gradient id
derived from React's `useId()` (`uid.replace(/:/g, "") + "-area"`),
the only per-instance datum in the output. -/
structure ChartSvg where
  gradId : String
  geometry : Option ChartGeometry
deriving Repr, DecidableEq

def renderChart (uid : String) (pts : List ChartPoint) : ChartSvg :=
  { gradId := uid ++ "-area", geometry := chartGeometry pts }

/-! ## Geometry engine: `DonutChart` / `Donut`

`r = 46, cx = 60, cy = 60, circumference = 2πr` in `ApiDashboard`,
`r = 28` in `ApiDashboardV3`.  The circumference is an irrational
constant fixed before the loop; the per-slice geometry is linear in it,
so we pass it as a parameter `circ`. -/

structure Slice where
  label : String
  pct : ℚ
  color : String
deriving Repr, DecidableEq

/-- One emitted `<circle>` arc: `strokeDasharray = dash (circ - dash)`,
`strokeDashoffset = -offset`, stroke colour from the slice; every arc
carries the same constant `rotate(-90 cx cy)` base rotation. -/
structure Arc where
  dash : ℚ
  offset : ℚ
  color : String
deriving Repr, DecidableEq

/-- `slices.map` body with the running `offset` accumulator:
`dash = (s.pct / 100) * circ; … offset += dash`. -/
def donutArcsAux (circ : ℚ) : List Slice → ℚ → List Arc
  | [], _ => []
  | s :: rest, off =>
    { dash := s.pct / 100 * circ, offset := off, color := s.color } ::
      donutArcsAux circ rest (off + s.pct / 100 * circ)

def donutArcs (slices : List Slice) (circ : ℚ) : List Arc :=
  donutArcsAux circ slices 0

/-- Model of `(q).toFixed(1)` on an exact decimal: one digit after the
point, rounding half up (only the shape matters to the claims; no claim
depends on a particular rounded value). -/
def jsToFixed1 (q : ℚ) : String :=
  let n : ℤ := ⌊q * 10 + 1 / 2⌋
  toString (n / 10) ++ "." ++ toString (n % 10)

/-- The donut's centre text node has children
`{slices[0]?.pct.toFixed(1)}` and the literal `"%"`; when `slices` is
empty the optional chain yields `undefined`, which React renders as
nothing, leaving only the percent sign. -/
def donutCenterLabel (slices : List Slice) : String :=
  (match slices.head? with
   | some s => jsToFixed1 s.pct
   | none => "") ++ "%"

/-! ## Geometry engine: `Sparkline` (`ApiDashboardV3`)

`W = 72, H = 28, pad = 2`; guard `values.length < 2` → empty frame. -/

/-- `xs = values.map((_, i) => pad + (i / (values.length - 1)) * (W - pad * 2))` -/
def sparkX (n : Nat) (i : Nat) : ℚ := 2 + ((i : ℚ) / ((n : ℚ) - 1)) * (72 - 2 * 2)

/-- `ys = values.map(v => pad + (1 - v) * (H - pad * 2 - 4))` -/
def sparkY (v : ℚ) : ℚ := 2 + (1 - v) * (28 - 2 * 2 - 4)

structure SparkGeometry where
  pts : List (ℚ × ℚ)
  area : List (ℚ × ℚ)
  marker : ℚ × ℚ
  color : String
deriving Repr, DecidableEq

/-- Colour table `sparkColor : Record<ErrorLevel, string>`. -/
def sparkColor : String → String
  | "warn" => "#d97706"
  | "bad" => "#dc2626"
  | _ => "#4f46e5"

def sparkGeometry (values : List ℚ) (level : String) : Option SparkGeometry :=
  if values.length < 2 then none
  else
    let n := values.length
    let p := (List.range n).map fun i => (sparkX n i, sparkY (values.getD i 0))
    some
      { pts := p
        area := p ++ [(sparkX n (n - 1), 28), (sparkX n 0, 28)]
        marker := (sparkX n (n - 1), sparkY (values.getD (n - 1) 0))
        color := sparkColor level }

structure SparkSvg where
  gradId : String
  geometry : Option SparkGeometry
deriving Repr, DecidableEq

def renderSparkline (uid : String) (values : List ℚ) (level : String) : SparkSvg :=
  { gradId := uid ++ "-sg", geometry := sparkGeometry values level }

/-! ## Spec-side definitions, for comparison with the code

Each of the following follows the spec's words (not the source) and is
used only to state refinement/counterexample theorems against the
corresponding code-side definition above. -/

/-- The plain maximum of all primary and secondary values of the
series (neutral element 0). -/
def seriesMax (pts : List ChartPoint) : ℚ :=
  pts.foldr (fun p acc => max (max p.success p.error) acc) 0

/-- The claim's reading of the vertical scale: the maximum of the
values, multiplied by 1.1 and *then* floored at 1. -/
def maxValClaimed (pts : List ChartPoint) : ℚ :=
  max (seriesMax pts * (11 / 10)) 1

/-- The claim's reading of the x-label set: every Nth index for
`N = max(1, floor(n / 5))`, with 0 and n-1 always included. -/
def xLabelIndicesSpec (n : Nat) : List Nat :=
  (List.range n).filter fun i =>
    decide (i = 0 ∨ i = n - 1 ∨ i % (max 1 (n / 5)) = 0)

/-! ## Helper lemmas -/

lemma sum_map_pct (circ : ℚ) (l : List Slice) :
    (l.map (fun s => s.pct / 100 * circ)).sum =
      (l.map Slice.pct).sum / 100 * circ := by
  induction l with
  | nil => simp
  | cons s rest ih => simp only [List.map_cons, List.sum_cons, ih]; ring

/-- Folding `max` with seed `1` equals the seed-`0` fold floored at `1`. -/
lemma foldr_max_one (l : List ChartPoint) :
    l.foldr (fun p acc => max (max p.success p.error) acc) 1 =
      max (l.foldr (fun p acc => max (max p.success p.error) acc) 0) 1 := by
  induction l with
  | nil => simp
  | cons p l ih =>
    simp only [List.foldr_cons]
    rw [ih]
    exact (max_assoc _ _ _).symm

lemma donutArcsAux_map_dash (circ : ℚ) :
    ∀ (l : List Slice) (off : ℚ),
      (donutArcsAux circ l off).map Arc.dash = l.map (fun s => s.pct / 100 * circ)
  | [], _ => rfl
  | s :: rest, off => by
    simp [donutArcsAux, donutArcsAux_map_dash circ rest]

lemma donutArcsAux_map_color (circ : ℚ) :
    ∀ (l : List Slice) (off : ℚ),
      (donutArcsAux circ l off).map Arc.color = l.map Slice.color
  | [], _ => rfl
  | s :: rest, off => by
    simp [donutArcsAux, donutArcsAux_map_color circ rest]

lemma donutArcsAux_head_offset (circ : ℚ) (l : List Slice) (off : ℚ) (a : Arc)
    (h : (donutArcsAux circ l off).head? = some a) : a.offset = off := by
  cases l with
  | nil => simp [donutArcsAux] at h
  | cons s rest =>
    simp [donutArcsAux] at h
    rw [← h]

lemma donutArcsAux_chain (circ : ℚ) :
    ∀ (l : List Slice) (off : ℚ),
      (donutArcsAux circ l off).Chain' (fun a b => b.offset = a.offset + a.dash)
  | [], _ => by simp [donutArcsAux]
  | s :: rest, off => by
    rw [donutArcsAux, List.chain'_cons']
    refine ⟨fun b hb => ?_, donutArcsAux_chain circ rest _⟩
    have := donutArcsAux_head_offset circ rest _ b hb
    simp [this]

/-- `len ≤ ⌈len / s⌉ * s` for positive `s`, with the ceiling written as
the code's `(len + s - 1) / s`. -/
lemma le_ceil_mul (len s : Nat) (hs : 0 < s) : len ≤ (len + s - 1) / s * s := by
  rcases Nat.eq_zero_or_pos len with h0 | h0
  · simp [h0]
  · have hdm := Nat.div_add_mod' (len + s - 1) s
    have hmod : (len + s - 1) % s < s := Nat.mod_lt _ hs
    generalize (len + s - 1) / s * s = t at hdm ⊢
    omega

/-- Taking chunks of `s` elements at offsets `0, s, 2s, …, (n-1)s` and
concatenating them reproduces the list, provided `n` chunks cover it. -/
lemma join_chunks {α : Type} (s : Nat) :
    ∀ (n : Nat) (l : List α), l.length ≤ n * s →
      ((List.range n).map (fun k => (l.drop (k * s)).take s)).flatten = l := by
  intro n
  induction n with
  | zero =>
    intro l h
    simp only [Nat.zero_mul, Nat.le_zero] at h
    simp [List.eq_nil_of_length_eq_zero h]
  | succ n ih =>
    intro l h
    rw [List.range_succ_eq_map]
    simp only [List.map_cons, List.map_map, List.flatten_cons, Nat.zero_mul,
      List.drop_zero]
    have hfun : ((fun k => (l.drop (k * s)).take s) ∘ (· + 1)) =
        fun k => ((l.drop s).drop (k * s)).take s := by
      funext k
      simp only [Function.comp_apply, List.drop_drop]
      have hks : (k + 1) * s = s + k * s := by ring
      rw [hks]
    have hlen : (l.drop s).length ≤ n * s := by
      rw [List.length_drop]
      have hexp : (n + 1) * s = n * s + s := by ring
      rw [hexp] at h
      generalize n * s = m at h ⊢
      omega
    rw [hfun, ih (l.drop s) hlen]
    exact List.take_append_drop s l

end ApiDashboard

namespace ApiDashboard

/-! ## Claims -/

/-- C1: for two fetches A then B started in that order for the same
slot, a completion belonging to any request other than the most
recently started one is discarded without any state transition, and
when A resolves after B the final payload is B's, never A's. -/
theorem stale_fetch_discarded_last_started_wins {α : Type}
    (sys : FetchSystem α) (pA pB : α) :
    (∀ (tok : Nat) (res : FetchResult α), tok ≠ sys.current →
        resolve sys tok res = sys) ∧
    ((resolve
        (resolve (startFetch (startFetch sys))
          (startFetch (startFetch sys)).current (.success pB))
        (startFetch sys).current (.success pA)).st.data = some pB) := by
  constructor
  · intro tok res h
    simp [resolve, h]
  · simp [startFetch, resolve, applyResult]

/-- C1 witness: concrete run over `Nat` payloads; a stale completion
with token 3 leaves the idle system unchanged, and the interleaving
start A, start B, resolve B (payload 5), resolve A (payload 7) ends
with payload 5. -/
theorem stale_fetch_discarded_last_started_wins_witness :
    (resolve (⟨⟨none, false, none⟩, 0, 0⟩ : FetchSystem Nat) 3 (.success 7) =
      ⟨⟨none, false, none⟩, 0, 0⟩) ∧
    ((resolve
        (resolve (startFetch (startFetch (⟨⟨none, false, none⟩, 0, 0⟩ : FetchSystem Nat)))
          (startFetch (startFetch (⟨⟨none, false, none⟩, 0, 0⟩ : FetchSystem Nat))).current
          (.success 5))
        (startFetch (⟨⟨none, false, none⟩, 0, 0⟩ : FetchSystem Nat)).current
        (.success 7)).st.data = some 5) :=
  ⟨(stale_fetch_discarded_last_started_wins ⟨⟨none, false, none⟩, 0, 0⟩ 7 5).1
      3 (.success 7) (by decide),
   (stale_fetch_discarded_last_started_wins ⟨⟨none, false, none⟩, 0, 0⟩ 7 5).2⟩

/-- C2 counterexample: with prior state `{activeWindow := "7d",
currentPage := 2, alertDismissed := true}`, selecting the already
active window "7d" does not reset `currentPage` to 1 nor
`alertDismissed` to false — the reset effect only fires when
`activeWindow` changes. -/
theorem selectWindow_same_window_no_reset :
    ¬ ((selectWindow ⟨"7d", 2, true, some "row"⟩ "7d").currentPage = 1 ∧
       (selectWindow ⟨"7d", 2, true, some "row"⟩ "7d").alertDismissed = false) := by
  decide

/-- C2 amended: `selectWindow w` always ends with `activeWindow = w`
and never touches `expandedRowKey`; when `w` differs from the active
window it resets `currentPage` to 1 and `alertDismissed` to false;
when `w` is already active the whole state is unchanged. -/
theorem selectWindow_spec (s : ViewState) (w : String) :
    (selectWindow s w).activeWindow = w ∧
    (selectWindow s w).expandedPath = s.expandedPath ∧
    (w ≠ s.activeWindow →
      (selectWindow s w).currentPage = 1 ∧
      (selectWindow s w).alertDismissed = false) ∧
    (w = s.activeWindow → selectWindow s w = s) := by
  by_cases h : w = s.activeWindow
  · subst h
    simp [selectWindow]
  · simp [selectWindow, h]

/-- C2 witness: switching from "24h" to "7d" with page 3, a dismissed
alert and an expanded row resets page and alert but keeps the row. -/
theorem selectWindow_spec_witness :
    (selectWindow ⟨"24h", 3, true, some "row"⟩ "7d").activeWindow = "7d" ∧
    (selectWindow ⟨"24h", 3, true, some "row"⟩ "7d").currentPage = 1 ∧
    (selectWindow ⟨"24h", 3, true, some "row"⟩ "7d").alertDismissed = false ∧
    (selectWindow ⟨"24h", 3, true, some "row"⟩ "7d").expandedPath = some "row" := by
  have h := selectWindow_spec ⟨"24h", 3, true, some "row"⟩ "7d"
  exact ⟨h.1, (h.2.2.1 (by decide)).1, (h.2.2.1 (by decide)).2, h.2.1⟩

/-- C3 counterexample: with 18 endpoints and page size 7,
`totalPages = 3`, but the `goto` handler is raw `setPage(p)`: selecting
page 5 yields `currentPage = 5`, not the claimed `clamp(5, 1, 3) = 3`. -/
theorem selectPage_no_clamp :
    totalPages 18 7 = 3 ∧
    applyPageEvent 1 (totalPages 18 7) (.goto 5) = 5 ∧
    clamp 5 1 (totalPages 18 7) = 3 ∧
    applyPageEvent 1 (totalPages 18 7) (.goto 5) ≠ clamp 5 1 (totalPages 18 7) := by
  decide

/-- C3 amended: `totalPages 18 7 = 3`; the numbered page buttons exist
only for `1 ≤ p ≤ totalPages` and on those `setPage(p)` coincides with
`clamp(p, 1, totalPages)`; the prev/next arrows clamp `page ∓ 1` into
range, so every page reachable through the pagination controls equals
the clamp of the requested page. -/
theorem pagination_in_range_clamps (page total p : Nat)
    (hpage : 1 ≤ page) (hpt : page ≤ total) :
    totalPages 18 7 = 3 ∧
    (1 ≤ p → p ≤ total → applyPageEvent page total (.goto p) = clamp p 1 total) ∧
    applyPageEvent page total .prev = clamp (page - 1) 1 total ∧
    applyPageEvent page total .next = clamp (page + 1) 1 total := by
  refine ⟨by decide, ?_, ?_, ?_⟩ <;>
    simp only [applyPageEvent, clamp] <;> omega

/-- C3 witness: at page 2 of 3, goto 3, prev and next all agree with
the clamp formula. -/
theorem pagination_in_range_clamps_witness :
    applyPageEvent 2 3 (.goto 3) = clamp 3 1 3 ∧
    applyPageEvent 2 3 .prev = clamp 1 1 3 ∧
    applyPageEvent 2 3 .next = clamp 3 1 3 := by
  have h := pagination_in_range_clamps 2 3 3 (by decide) (by decide)
  exact ⟨h.2.1 (by decide) (by decide), h.2.2.1, h.2.2.2⟩

/-- C4 counterexample: for the all-zero two-point series the code's
scale is `max(0, 1) * 1.1 = 1.1` (floor applied before the headroom
multiplier), while the claim's "multiplied by 1.1, floored at 1"
yields `max(0 * 1.1, 1) = 1`. -/
theorem maxVal_floor_order_counterexample :
    maxVal [⟨"00:00", 0, 0⟩, ⟨"01:00", 0, 0⟩] = 11 / 10 ∧
    maxValClaimed [⟨"00:00", 0, 0⟩, ⟨"01:00", 0, 0⟩] = 1 ∧
    maxVal [⟨"00:00", 0, 0⟩, ⟨"01:00", 0, 0⟩] ≠
      maxValClaimed [⟨"00:00", 0, 0⟩, ⟨"01:00", 0, 0⟩] := by
  refine ⟨?_, ?_, ?_⟩ <;> norm_num [maxVal, maxValClaimed, seriesMax]

/-- C4 amended: `maxValue = max(all primary and secondary values, 1) * 1.1`
— the floor at 1 is applied to the maximum before the 10% headroom
multiplier; for the example series `[{success:100,error:5},
{success:150,error:3}]` this gives `maxValue = 165`, and point 0 maps
to `y = paddingTop + (1 - 100/165) * chartHeight`. -/
theorem maxVal_floor_then_headroom :
    (∀ pts : List ChartPoint, maxVal pts = max (seriesMax pts) 1 * (11 / 10)) ∧
    maxVal [⟨"00:00", 100, 5⟩, ⟨"01:00", 150, 3⟩] = 165 ∧
    py [⟨"00:00", 100, 5⟩, ⟨"01:00", 150, 3⟩] 100 =
      padT + (1 - 100 / 165) * chartH := by
  refine ⟨fun pts => ?_, ?_, ?_⟩
  · rw [maxVal, seriesMax, foldr_max_one]
  · norm_num [maxVal]
  · norm_num [py, maxVal, padT, chartH]

/-- C5: every emitted arc has length `(pct / 100) * circumference`;
arcs appear in input order with the input colours (no sorting); the
first arc starts at offset 0 (the constant -90° rotation puts it at 12
o'clock) and each next arc starts exactly where the previous one ends
(no gaps); the dash lengths sum to `(Σ pct) / 100 * circ`, hence to
the full circumference whenever the percentages sum to 100. -/
theorem donut_arcs_consecutive_and_sum (slices : List Slice) (circ : ℚ) :
    ((donutArcs slices circ).map Arc.dash =
      slices.map (fun s => s.pct / 100 * circ)) ∧
    ((donutArcs slices circ).map Arc.color = slices.map Slice.color) ∧
    (∀ a : Arc, (donutArcs slices circ).head? = some a → a.offset = 0) ∧
    ((donutArcs slices circ).Chain' (fun a b => b.offset = a.offset + a.dash)) ∧
    (((donutArcs slices circ).map Arc.dash).sum =
      (slices.map Slice.pct).sum / 100 * circ) ∧
    ((slices.map Slice.pct).sum = 100 →
      ((donutArcs slices circ).map Arc.dash).sum = circ) := by
  have hdash := donutArcsAux_map_dash circ slices 0
  have hsum : ((donutArcs slices circ).map Arc.dash).sum =
      (slices.map Slice.pct).sum / 100 * circ := by
    rw [donutArcs, hdash, sum_map_pct]
  refine ⟨hdash, donutArcsAux_map_color circ slices 0,
    fun a ha => donutArcsAux_head_offset circ slices 0 a ha,
    donutArcsAux_chain circ slices 0, hsum, fun h100 => ?_⟩
  rw [hsum, h100]
  norm_num

/-- C5 witness: the documented breakdown 94.2% / 4.5% / 1.3% sums to
100, and its arc lengths over a circumference of 100 sum to 100. -/
theorem donut_arcs_consecutive_and_sum_witness :
    ((donutArcs [⟨"2xx", 942 / 10, "#059669"⟩, ⟨"4xx", 45 / 10, "#4f46e5"⟩,
        ⟨"5xx", 13 / 10, "#dc2626"⟩] 100).map Arc.dash).sum = 100 := by
  have h := donut_arcs_consecutive_and_sum
    [⟨"2xx", 942 / 10, "#059669"⟩, ⟨"4xx", 45 / 10, "#4f46e5"⟩,
      ⟨"5xx", 13 / 10, "#dc2626"⟩] 100
  exact h.2.2.2.2.2 (by norm_num)

/-- C6 counterexample: for a 3-point series the code labels only the
endpoints `[0, 2]` (the divisor `floor(3/5)` is 0 and JS `i % 0` is
`NaN`, never equal to 0), while the claimed `N = max(1, floor(3/5)) = 1`
rule would label every index `[0, 1, 2]`. -/
theorem xLabelIndices_short_series_counterexample :
    xLabelIndices 3 = [0, 2] ∧
    xLabelIndicesSpec 3 = [0, 1, 2] ∧
    xLabelIndices 3 ≠ xLabelIndicesSpec 3 := by
  decide

/-- C6 amended: the label stride is `floor(n/5)` with no floor at 1;
for `n ≥ 5` this agrees with the claimed `max(1, floor(n/5))` rule,
while for `2 ≤ n < 5` the zero divisor disables the stride disjunct
and only indices 0 and n-1 are labelled. -/
theorem xLabelIndices_spec (n : Nat) (h2 : 2 ≤ n) :
    (5 ≤ n → xLabelIndices n = xLabelIndicesSpec n) ∧
    (n < 5 → xLabelIndices n = [0, n - 1]) := by
  constructor
  · intro h5
    have hdiv : n / 5 ≠ 0 := by omega
    have hmax : max 1 (n / 5) = n / 5 := by omega
    unfold xLabelIndices xLabelIndicesSpec
    rw [hmax]
    apply List.filter_congr
    intro i _
    simp only [decide_eq_decide]
    tauto
  · intro h5
    interval_cases n <;> decide

/-- C6 witness: at n = 12 the code agrees with the claimed rule, and
at n = 3 only the two endpoints are labelled. -/
theorem xLabelIndices_spec_witness :
    xLabelIndices 12 = xLabelIndicesSpec 12 ∧ xLabelIndices 3 = [0, 2] :=
  ⟨(xLabelIndices_spec 12 (by decide)).1 (by decide),
   (xLabelIndices_spec 3 (by decide)).2 (by decide)⟩

/-- C7: the geometry emitted by `RequestChart` and `Sparkline` is a
function of the input series/values/level alone: two renders with
identical inputs emit identical geometry even across different
component instances (different `useId` values, the only per-instance
datum in the output); the embedding is a pure function, with no
randomness and no mutable global state. -/
theorem geometry_deterministic (uidA uidB : String)
    (ptsA ptsB : List ChartPoint) (valsA valsB : List ℚ) (lvlA lvlB : String)
    (hpts : ptsA = ptsB) (hvals : valsA = valsB) (hlvl : lvlA = lvlB) :
    (renderChart uidA ptsA).geometry = (renderChart uidB ptsB).geometry ∧
    (renderSparkline uidA valsA lvlA).geometry =
      (renderSparkline uidB valsB lvlB).geometry := by
  subst hpts hvals hlvl
  exact ⟨rfl, rfl⟩

/-- C7 witness: two instances with distinct gradient ids emit the same
geometry for the same two-point series and sparkline values. -/
theorem geometry_deterministic_witness :
    (renderChart "a1" [⟨"00:00", 1, 0⟩, ⟨"01:00", 2, 1⟩]).geometry =
      (renderChart "b2" [⟨"00:00", 1, 0⟩, ⟨"01:00", 2, 1⟩]).geometry ∧
    (renderSparkline "a1" [0, 1 / 2, 1] "ok").geometry =
      (renderSparkline "b2" [0, 1 / 2, 1] "ok").geometry :=
  geometry_deterministic "a1" "b2"
    [⟨"00:00", 1, 0⟩, ⟨"01:00", 2, 1⟩] [⟨"00:00", 1, 0⟩, ⟨"01:00", 2, 1⟩]
    [0, 1 / 2, 1] [0, 1 / 2, 1] "ok" "ok" rfl rfl rfl

/-- C8: a failing fetch (non-2xx HTTP status, producing the message
`"HTTP <status>"`, or a network failure with the error's own message)
that belongs to the current request leaves the state with the error
message set (the error banner renders exactly when `error` is
non-null), loading cleared, and the payload exactly as it was:
previously loaded data is not cleared by a failed fetch. -/
theorem failed_fetch_sets_error_keeps_payload {α : Type}
    (sys : FetchSystem α) (s : Nat) (m : String) :
    ((resolve sys sys.current (.httpError s)).st.error =
        some ("HTTP " ++ toString s) ∧
      (resolve sys sys.current (.httpError s)).st.data = sys.st.data ∧
      (resolve sys sys.current (.httpError s)).st.loading = false) ∧
    ((resolve sys sys.current (.networkError m)).st.error = some m ∧
      (resolve sys sys.current (.networkError m)).st.data = sys.st.data ∧
      (resolve sys sys.current (.networkError m)).st.loading = false) := by
  simp [resolve, applyResult]

/-- C9 counterexample: with an empty slice array the centre text node
still contains the literal percent sign — the optional chain
`slices[0]?.pct.toFixed(1)` renders as nothing but the `%` suffix
remains — so the centre label is `"%"`, not empty. -/
theorem donut_empty_label_not_empty :
    ¬ donutCenterLabel [] = "" := by
  decide

/-- C9 amended: for the empty slice array the donut emits zero arcs
and its centre label consists of just the percent sign (the numeric
part is empty); both computations are total, so nothing crashes. -/
theorem donut_empty_zero_arcs (circ : ℚ) :
    donutArcs [] circ = [] ∧ donutCenterLabel [] = "%" :=
  ⟨rfl, by decide⟩

/-- C10: the rendered rows are exactly the contiguous slice
`endpoints[(p-1)*pageSize .. min(p*pageSize, length))`: the page has at
most `pageSize` rows, its length is `min(pageSize, length - (p-1)*pageSize)`,
its i-th row is element `(p-1)*pageSize + i` of the endpoint list, and
concatenating pages `1 .. totalPages` reproduces the endpoint list in
input order with no overlap and no omission. -/
theorem visibleEndpoints_partition {α : Type} (l : List α) (p s : Nat)
    (_hp : 1 ≤ p) (hs : 1 ≤ s) :
    (visibleEndpoints l p s).length ≤ s ∧
    (visibleEndpoints l p s).length = min s (l.length - (p - 1) * s) ∧
    (∀ i : Nat, i < (visibleEndpoints l p s).length →
      (visibleEndpoints l p s)[i]? = l[(p - 1) * s + i]?) ∧
    ((List.range (totalPages l.length s)).map
      (fun k => visibleEndpoints l (k + 1) s)).flatten = l := by
  refine ⟨?_, ?_, ?_, ?_⟩
  · simp only [visibleEndpoints, List.length_take, List.length_drop]
    omega
  · simp [visibleEndpoints, List.length_take, List.length_drop]
  · intro i hi
    have hi' : i < s := by
      simp only [visibleEndpoints, List.length_take, List.length_drop] at hi
      omega
    rw [visibleEndpoints, List.getElem?_take_of_lt hi', List.getElem?_drop]
  · have hcov : l.length ≤ totalPages l.length s * s := by
      calc l.length ≤ (l.length + s - 1) / s * s := le_ceil_mul l.length s hs
        _ ≤ totalPages l.length s * s :=
            Nat.mul_le_mul_right s (Nat.le_max_right 1 _)
    have hfun : (fun k => visibleEndpoints l (k + 1) s) =
        fun k => (l.drop (k * s)).take s := by
      funext k
      simp [visibleEndpoints]
    rw [hfun]
    exact join_chunks s (totalPages l.length s) l hcov

/-- C10 witness: an 8-element endpoint list with page size 3: page 2
shows at most 3 rows, its first row is element 3 of the list, and the
3 pages concatenate back to the list. -/
theorem visibleEndpoints_partition_witness :
    (visibleEndpoints [10, 20, 30, 40, 50, 60, 70, 80] 2 3).length ≤ 3 ∧
    (visibleEndpoints [10, 20, 30, 40, 50, 60, 70, 80] 2 3)[0]? =
      ([10, 20, 30, 40, 50, 60, 70, 80] : List Nat)[3]? ∧
    ((List.range (totalPages ([10, 20, 30, 40, 50, 60, 70, 80] : List Nat).length 3)).map
      (fun k => visibleEndpoints [10, 20, 30, 40, 50, 60, 70, 80] (k + 1) 3)).flatten =
      [10, 20, 30, 40, 50, 60, 70, 80] := by
  have h := visibleEndpoints_partition [10, 20, 30, 40, 50, 60, 70, 80] 2 3
    (by decide) (by decide)
  exact ⟨h.1, h.2.2.1 0 (by decide), h.2.2.2⟩

end ApiDashboard
